import Mathlib

/-
Verification of the walking-controllers repository (Walking_module).

Shallow embedding of the parts of the code relevant to the checked claims:
  - WalkingModule.cpp : advanceReferenceSignals, updateTrajectories slice of
    updateModule, setPlannerInput, setGoal, startWalking, evaluateZMP;
  - WalkingQPInverseKinematics_osqp.cpp : setBounds, solve, isSolutionFeasible;
  - WalkingTaskBasedTorqueSolver.cpp : solve, isSolutionFeasible.

Real arithmetic on doubles is modelled over ℚ; trajectory deques are
modelled as Lean lists with the front of the deque at the head of the list.
-/

set_option autoImplicit false

namespace WalkingControllers

/-- 2-vector over ℚ (iDynTree::Vector2). -/
abbrev Vec2 := ℚ × ℚ

/-- 3-vector over ℚ (iDynTree::Position / components of spatial vectors). -/
abbrev Vec3 := ℚ × ℚ × ℚ

/-- 3×3 matrix over ℚ, stored by rows (iDynTree::Rotation / Matrix3x3). -/
abbrev Mat3 := Vec3 × Vec3 × Vec3

/-- Homogeneous transform: rotation and translation (iDynTree::Transform). -/
abbrev Transform3 := Mat3 × Vec3

/-- Spatial vector with linear and angular part (iDynTree::Twist, SpatialAcc,
Wrench: first component linear/force, second angular/torque). -/
abbrev Spatial := Vec3 × Vec3

/-- Dot product of two 3-vectors. -/
def dot3 (a b : Vec3) : ℚ :=
  a.1 * b.1 + a.2.1 * b.2.1 + a.2.2 * b.2.2

/-- Apply a homogeneous transform to a point: `R * p + t`. -/
def applyTransform (T : Transform3) (p : Vec3) : Vec3 :=
  (dot3 T.1.1 p + T.2.1, dot3 T.1.2.1 p + T.2.2.1, dot3 T.1.2.2 p + T.2.2.2)

/-- Componentwise sum of two 2-vectors. -/
def add2 (a b : Vec2) : Vec2 := (a.1 + b.1, a.2 + b.2)

/-- The trajectory / reference-signal deques of `WalkingModule`, together
with the merge-point deque (`m_mergePoints`, a deque of `size_t`). -/
structure WalkingBuffers where
  leftTrajectory : List Transform3
  rightTrajectory : List Transform3
  leftTwistTrajectory : List Spatial
  rightTwistTrajectory : List Spatial
  leftAccelerationTrajectory : List Spatial
  rightAccelerationTrajectory : List Spatial
  leftInContact : List Bool
  rightInContact : List Bool
  isLeftFixedFrame : List Bool
  ZMPPositionDesired : List Vec2
  DCMPositionDesired : List Vec2
  DCMVelocityDesired : List Vec2
  comHeightTrajectory : List ℚ
  comHeightVelocity : List ℚ
  weightInLeft : List ℚ
  weightInRight : List ℚ
  mergePoints : List ℕ
  deriving DecidableEq

/-- `deque.pop_front(); deque.push_back(deque.back());` — the per-buffer step
of `advanceReferenceSignals`.  `back()` is read after the pop, so it is the
last element of the tail (on a deque left with fewer than one element the C++
call is undefined; the model then appends nothing). -/
def shiftBuffer {α : Type} (l : List α) : List α :=
  l.tail ++ l.tail.getLast?.toList

/-- Decrement of a `size_t` value (`mergePoint--`), i.e. subtraction of one
modulo 2^64. -/
def decSizeT (x : ℕ) : ℕ := (x + (2 ^ 64 - 1)) % 2 ^ 64

/-- The merge-point update at the end of `advanceReferenceSignals`: if the
deque is non-empty, every merge point is decremented and the front is dropped
when it has become zero. -/
def advanceMergePoints (mp : List ℕ) : List ℕ :=
  match mp.map decSizeT with
  | [] => []
  | x :: xs => if x = 0 then xs else x :: xs

/-- `WalkingModule::advanceReferenceSignals`.  The entry guard checks the
seven buffers listed in the source; on failure the function returns `false`
(here `none`) before any buffer or merge point is touched. -/
def advanceReferenceSignals (s : WalkingBuffers) : Option WalkingBuffers :=
  if s.leftTrajectory.isEmpty || s.rightTrajectory.isEmpty
     || s.leftInContact.isEmpty || s.rightInContact.isEmpty
     || s.DCMPositionDesired.isEmpty || s.DCMVelocityDesired.isEmpty
     || s.comHeightTrajectory.isEmpty then
    none
  else
    some
      { leftTrajectory := shiftBuffer s.leftTrajectory
        rightTrajectory := shiftBuffer s.rightTrajectory
        leftTwistTrajectory := shiftBuffer s.leftTwistTrajectory
        rightTwistTrajectory := shiftBuffer s.rightTwistTrajectory
        leftAccelerationTrajectory := shiftBuffer s.leftAccelerationTrajectory
        rightAccelerationTrajectory := shiftBuffer s.rightAccelerationTrajectory
        leftInContact := shiftBuffer s.leftInContact
        rightInContact := shiftBuffer s.rightInContact
        isLeftFixedFrame := shiftBuffer s.isLeftFixedFrame
        ZMPPositionDesired := shiftBuffer s.ZMPPositionDesired
        DCMPositionDesired := shiftBuffer s.DCMPositionDesired
        DCMVelocityDesired := shiftBuffer s.DCMVelocityDesired
        comHeightTrajectory := shiftBuffer s.comHeightTrajectory
        comHeightVelocity := shiftBuffer s.comHeightVelocity
        weightInLeft := shiftBuffer s.weightInLeft
        weightInRight := shiftBuffer s.weightInRight
        mergePoints := advanceMergePoints s.mergePoints }

/-- All sixteen trajectory buffers have length `n`. -/
def allBuffersLength (s : WalkingBuffers) (n : ℕ) : Prop :=
  s.leftTrajectory.length = n ∧ s.rightTrajectory.length = n
  ∧ s.leftTwistTrajectory.length = n ∧ s.rightTwistTrajectory.length = n
  ∧ s.leftAccelerationTrajectory.length = n
  ∧ s.rightAccelerationTrajectory.length = n
  ∧ s.leftInContact.length = n ∧ s.rightInContact.length = n
  ∧ s.isLeftFixedFrame.length = n ∧ s.ZMPPositionDesired.length = n
  ∧ s.DCMPositionDesired.length = n ∧ s.DCMVelocityDesired.length = n
  ∧ s.comHeightTrajectory.length = n ∧ s.comHeightVelocity.length = n
  ∧ s.weightInLeft.length = n ∧ s.weightInRight.length = n

instance (s : WalkingBuffers) (n : ℕ) : Decidable (allBuffersLength s n) := by
  unfold allBuffersLength; infer_instance

/-- A freshly planned trajectory bundle as delivered by the trajectory
generator inside `WalkingModule::updateTrajectories` (one vector per
reference signal, plus the generator's merge points). -/
structure TrajectoryBundle where
  leftTrajectory : List Transform3
  rightTrajectory : List Transform3
  leftTwistTrajectory : List Spatial
  rightTwistTrajectory : List Spatial
  leftAccelerationTrajectory : List Spatial
  rightAccelerationTrajectory : List Spatial
  leftInContact : List Bool
  rightInContact : List Bool
  isLeftFixedFrame : List Bool
  ZMPPositionDesired : List Vec2
  DCMPositionDesired : List Vec2
  DCMVelocityDesired : List Vec2
  comHeightTrajectory : List ℚ
  comHeightVelocity : List ℚ
  weightInLeft : List ℚ
  weightInRight : List ℚ
  mergePoints : List ℕ
  deriving DecidableEq

/-- All sixteen vectors of a bundle have length `m`. -/
def bundleLength (b : TrajectoryBundle) (m : ℕ) : Prop :=
  b.leftTrajectory.length = m ∧ b.rightTrajectory.length = m
  ∧ b.leftTwistTrajectory.length = m ∧ b.rightTwistTrajectory.length = m
  ∧ b.leftAccelerationTrajectory.length = m
  ∧ b.rightAccelerationTrajectory.length = m
  ∧ b.leftInContact.length = m ∧ b.rightInContact.length = m
  ∧ b.isLeftFixedFrame.length = m ∧ b.ZMPPositionDesired.length = m
  ∧ b.DCMPositionDesired.length = m ∧ b.DCMVelocityDesired.length = m
  ∧ b.comHeightTrajectory.length = m ∧ b.comHeightVelocity.length = m
  ∧ b.weightInLeft.length = m ∧ b.weightInRight.length = m

instance (b : TrajectoryBundle) (m : ℕ) : Decidable (bundleLength b m) := by
  unfold bundleLength; infer_instance

/-- Modelled from the spec: `StdHelper::appendVectorToDeque` lives in
`Utils.hpp`/`Utils.cpp`, which is not part of the sources; the spec states
that at the splice "the older tail is discarded, new suffix appended" at
offset `mergePoint`, i.e. the deque keeps its first `initPoint` samples and
the new vector replaces the rest. -/
def appendVectorToDeque {α : Type} (input : List α) (output : List α)
    (initPoint : ℕ) : List α :=
  output.take initPoint ++ input

/-- `WalkingModule::updateTrajectories`.  The planner result is modelled as
`Option TrajectoryBundle`: `none` when `isTrajectoryComputed()` is false, in
which case the function returns `false` (`none`) and nothing is spliced.
Otherwise every buffer is spliced at `mergePoint` and the merge-point deque
is replaced by the generator's merge points with the leading `0` popped. -/
def updateTrajectories (planner : Option TrajectoryBundle)
    (s : WalkingBuffers) (mergePoint : ℕ) : Option WalkingBuffers :=
  match planner with
  | none => none
  | some b =>
    some
      { leftTrajectory := appendVectorToDeque b.leftTrajectory s.leftTrajectory mergePoint
        rightTrajectory := appendVectorToDeque b.rightTrajectory s.rightTrajectory mergePoint
        leftTwistTrajectory := appendVectorToDeque b.leftTwistTrajectory s.leftTwistTrajectory mergePoint
        rightTwistTrajectory := appendVectorToDeque b.rightTwistTrajectory s.rightTwistTrajectory mergePoint
        leftAccelerationTrajectory := appendVectorToDeque b.leftAccelerationTrajectory s.leftAccelerationTrajectory mergePoint
        rightAccelerationTrajectory := appendVectorToDeque b.rightAccelerationTrajectory s.rightAccelerationTrajectory mergePoint
        leftInContact := appendVectorToDeque b.leftInContact s.leftInContact mergePoint
        rightInContact := appendVectorToDeque b.rightInContact s.rightInContact mergePoint
        isLeftFixedFrame := appendVectorToDeque b.isLeftFixedFrame s.isLeftFixedFrame mergePoint
        ZMPPositionDesired := appendVectorToDeque b.ZMPPositionDesired s.ZMPPositionDesired mergePoint
        DCMPositionDesired := appendVectorToDeque b.DCMPositionDesired s.DCMPositionDesired mergePoint
        DCMVelocityDesired := appendVectorToDeque b.DCMVelocityDesired s.DCMVelocityDesired mergePoint
        comHeightTrajectory := appendVectorToDeque b.comHeightTrajectory s.comHeightTrajectory mergePoint
        comHeightVelocity := appendVectorToDeque b.comHeightVelocity s.comHeightVelocity mergePoint
        weightInLeft := appendVectorToDeque b.weightInLeft s.weightInLeft mergePoint
        weightInRight := appendVectorToDeque b.weightInRight s.weightInRight mergePoint
        mergePoints := b.mergePoints.tail }

/-- The re-plan countdown slice of `WalkingModule::updateModule` (the
`if(m_newTrajectoryRequired)` block).  Inputs: the buffer state, the two
countdown fields, the outcome of `askNewTrajectories` at countdown 10
(`askOk`), and the planner result used by `updateTrajectories` at
countdown 2.  The result is `none` when `updateModule` returns `false`
(which stops the module — fatal); otherwise it carries the new buffers,
`m_newTrajectoryRequired`, `m_newTrajectoryMergeCounter` and
`resetTrajectory`. -/
def mergeCountdownStep (s : WalkingBuffers) (required : Bool) (counter : ℤ)
    (askOk : Bool) (planner : Option TrajectoryBundle) :
    Option (WalkingBuffers × Bool × ℤ × Bool) :=
  if required then
    if counter = 10 ∧ askOk = false then none
    else if counter = 2 then
      match updateTrajectories planner s 2 with
      | none => none
      | some s1 => some (s1, false, counter - 1, true)
    else some (s, true, counter - 1, false)
  else some (s, required, counter, false)

/-- The walking finite-state machine (`WalkingFSM`). -/
inductive WalkingFSM where
  | Configured | Preparing | Prepared | Walking | Paused | Stopped
  deriving DecidableEq

/-- The fields of `WalkingModule` read and written by `setPlannerInput`:
the merge points, the contact-flag deques, the desired planner position,
the merge countdown and the pending-request flag. -/
structure SchedulerState where
  mergePoints : List ℕ
  leftInContact : List Bool
  rightInContact : List Bool
  desiredPosition : Vec2
  newTrajectoryMergeCounter : ℤ
  newTrajectoryRequired : Bool
  deriving DecidableEq

/-- `WalkingModule::setPlannerInput`.  Returns `none` when the C++ function
returns `false` (no state is modified on that path); otherwise the updated
state.  `front()` of the contact deques is modelled as `headD false`. -/
def setPlannerInput (s : SchedulerState) (x y : ℚ) : Option SchedulerState :=
  if s.mergePoints = [] then
    if !(s.leftInContact.headD false && s.rightInContact.headD false) then none
    else if s.newTrajectoryRequired = true then some s
    else
      some { s with
              newTrajectoryMergeCounter := 10
              desiredPosition := (x, y)
              newTrajectoryRequired := true }
  else
    if 10 < s.mergePoints.headD 0 then
      some { s with
              newTrajectoryMergeCounter := (s.mergePoints.headD 0 : ℤ)
              desiredPosition := (x, y)
              newTrajectoryRequired := true }
    else if 1 < s.mergePoints.length then
      if s.newTrajectoryRequired = true then some s
      else
        some { s with
                newTrajectoryMergeCounter := (s.mergePoints.getD 1 0 : ℤ)
                desiredPosition := (x, y)
                newTrajectoryRequired := true }
    else
      if s.newTrajectoryRequired = true then some s
      else
        some { s with
                newTrajectoryMergeCounter := 10
                desiredPosition := (x, y)
                newTrajectoryRequired := true }

/-- `WalkingModule::setGoal`: rejected (returns `false`, nothing modified)
unless the FSM state is `Walking`; otherwise forwards to `setPlannerInput`.
`setGoal` never changes the FSM state. -/
def setGoal (robotState : WalkingFSM) (s : SchedulerState) (x y : ℚ) :
    Option SchedulerState :=
  if robotState ≠ WalkingFSM.Walking then none
  else setPlannerInput s x y

/-- `WalkingModule::startWalking`, restricted to its effect on the FSM state
and its return value: rejected (returns `false`, state unchanged) unless the
state is `Prepared` or `Paused`; on success the state becomes `Walking`. -/
def startWalking (robotState : WalkingFSM) : Bool × WalkingFSM :=
  if robotState ≠ WalkingFSM.Prepared ∧ robotState ≠ WalkingFSM.Paused then
    (false, robotState)
  else
    (true, WalkingFSM.Walking)

/-- `WalkingModule::evaluateZMP`.  A wrench is `(force, torque)`; the
vertical force is the third force component, and the per-foot ZMP uses the
angular components `(τx, τy)`.  `fkSolverReady` models the
`m_FKSolver == nullptr` guard; `worldLeft`/`worldRight` are the foot-to-world
transforms delivered by the FK solver.  `none` models `return false`. -/
def evaluateZMP (fkSolverReady : Bool) (leftWrench rightWrench : Spatial)
    (worldLeft worldRight : Transform3) : Option Vec2 :=
  if !fkSolverReady then none
  else
    let rfz : ℚ := rightWrench.1.2.2
    let zmpRightPair : Vec3 × ℚ :=
      if rfz < 1 / 1000 then ((0, 0, 0), 0)
      else ((-rightWrench.2.2.1 / rfz, rightWrench.2.1 / rfz, 0), 1)
    let lfz : ℚ := leftWrench.1.2.2
    let zmpLeftPair : Vec3 × ℚ :=
      if lfz < 1 / 1000 then ((0, 0, 0), 0)
      else ((-leftWrench.2.2.1 / lfz, leftWrench.2.1 / lfz, 0), 1)
    let totalZ : ℚ := rfz + lfz
    if totalZ < 1 / 10 then none
    else
      let zmpLeftWorld := applyTransform worldLeft zmpLeftPair.1
      let zmpRightWorld := applyTransform worldRight zmpRightPair.1
      some (lfz * zmpLeftPair.2 / totalZ * zmpLeftWorld.1
              + rfz * zmpRightPair.2 / totalZ * zmpRightWorld.1,
            lfz * zmpLeftPair.2 / totalZ * zmpLeftWorld.2.1
              + rfz * zmpRightPair.2 / totalZ * zmpRightWorld.2.1)

/-- One foot's contribution to the measured ZMP as the claim words it: zero
when the foot's vertical force is below 0.001 N, otherwise the world-frame
per-foot ZMP weighted by that foot's share of the total vertical force. -/
def zmpWeightedTerm (w : Spatial) (T : Transform3) (totalZ : ℚ) : Vec2 :=
  let fz : ℚ := w.1.2.2
  if fz < 1 / 1000 then (0, 0)
  else
    let footZMPWorld := applyTransform T (-w.2.2.1 / fz, w.2.1 / fz, 0)
    (fz / totalZ * footZMPWorld.1, fz / totalZ * footZMPWorld.2.1)

/-- Transpose of a 3×3 matrix (`iDynTree::Rotation::inverse` on a rotation). -/
def transpose3 (A : Mat3) : Mat3 :=
  ((A.1.1, A.2.1.1, A.2.2.1),
   (A.1.2.1, A.2.1.2.1, A.2.2.2.1),
   (A.1.2.2, A.2.1.2.2, A.2.2.2.2))

/-- Product of two 3×3 matrices. -/
def matMul3 (A B : Mat3) : Mat3 :=
  let Bt := transpose3 B
  ((dot3 A.1 Bt.1, dot3 A.1 Bt.2.1, dot3 A.1 Bt.2.2),
   (dot3 A.2.1 Bt.1, dot3 A.2.1 Bt.2.1, dot3 A.2.1 Bt.2.2),
   (dot3 A.2.2 Bt.1, dot3 A.2.2 Bt.2.1, dot3 A.2.2 Bt.2.2))

/-- `iDynTree::unskew`: the vector `(M(2,1), M(0,2), M(1,0))` of a
skew-symmetric matrix. -/
def unskew (M : Mat3) : Vec3 := (M.2.2.2.1, M.1.2.2, M.2.1.1)

/-- Entry `i ∈ {0,1,2}` of a 3-vector. -/
def vecEntry (v : Vec3) : ℕ → ℚ
  | 0 => v.1
  | 1 => v.2.1
  | _ => v.2.2

/-- Entry `i ∈ {0,…,5}` of a spatial vector (linear part first). -/
def spatialEntry (t : Spatial) (i : ℕ) : ℚ :=
  if i < 3 then vecEntry t.1 i else vecEntry t.2 (i - 3)

/-- The fields of `WalkingQPIK_osqp` read by `setBounds`. -/
structure QPIKData where
  kPosFoot : ℚ
  kAttFoot : ℚ
  kCom : ℚ
  ku : ℚ
  kb : ℚ
  leftFootToWorldTransform : Transform3
  desiredLeftFootToWorldTransform : Transform3
  rightFootToWorldTransform : Transform3
  desiredRightFootToWorldTransform : Transform3
  leftFootTwist : Spatial
  rightFootTwist : Spatial
  useCoMAsConstraint : Bool
  comVelocity : Vec3
  comPosition : Vec3
  desiredComPosition : Vec3
  numberOfTaskConstraints : ℕ
  numberOfConstraints : ℕ
  jointPosition : ℕ → ℚ
  minJointsPosition : ℕ → ℚ
  maxJointsPosition : ℕ → ℚ
  maxJointsVelocity : ℕ → ℚ

/-- The six-row bound block of one foot: the twist itself when its first two
components are both zero, otherwise the twist minus the Cartesian
correction. -/
def footBoundBlock (twist : Spatial) (correction : ℕ → ℚ) (i : ℕ) : ℚ :=
  if spatialEntry twist 0 = spatialEntry twist 1 ∧ spatialEntry twist 0 = 0 then
    spatialEntry twist i
  else
    spatialEntry twist i - correction i

/-- The Cartesian correction of one foot inside `setBounds`: position error
scaled by `kPosFoot` on the linear rows, `kAttFoot · unskew(skewSymmetric(R
R_dᵀ))` on the angular rows.  `skewSym` abstracts
`iDynTreeHelper::Rotation::skewSymmetric`, which is defined in `Utils.cpp`
and not part of the sources. -/
def footCorrection (skewSym : Mat3 → Mat3) (kPosFoot kAttFoot : ℚ)
    (T Tdes : Transform3) (i : ℕ) : ℚ :=
  if i < 3 then
    kPosFoot * vecEntry (T.2.1 - Tdes.2.1, T.2.2.1 - Tdes.2.2.1,
                         T.2.2.2 - Tdes.2.2.2) i
  else
    kAttFoot * vecEntry (unskew (skewSym (matMul3 T.1 (transpose3 Tdes.1)))) (i - 3)

/-- `WalkingQPIK_osqp::setBounds`, as the pair (lower bounds, upper bounds)
indexed by constraint row.  Rows `0–5` hold the left-foot block, `6–11` the
right-foot block, `12–14` the CoM block when `useCoMAsConstraint`; the loop
over `i ∈ [numberOfTaskConstraints, numberOfConstraints)` then writes the
joint-velocity bounds shaped by `tanh`.  `tanh` abstracts `std::tanh`. -/
def setBounds (tanh : ℚ → ℚ) (skewSym : Mat3 → Mat3) (d : QPIKData) :
    (ℕ → ℚ) × (ℕ → ℚ) :=
  let leftCorr := footCorrection skewSym d.kPosFoot d.kAttFoot
      d.leftFootToWorldTransform d.desiredLeftFootToWorldTransform
  let rightCorr := footCorrection skewSym d.kPosFoot d.kAttFoot
      d.rightFootToWorldTransform d.desiredRightFootToWorldTransform
  let comBlock : ℕ → ℚ := fun i =>
    vecEntry d.comVelocity i
      - d.kCom * (vecEntry d.comPosition i - vecEntry d.desiredComPosition i)
  let taskBlock : ℕ → ℚ := fun i =>
    if i < 6 then footBoundBlock d.leftFootTwist leftCorr i
    else if i < 12 then footBoundBlock d.rightFootTwist rightCorr (i - 6)
    else if d.useCoMAsConstraint then comBlock (i - 12)
    else 0
  (fun i =>
    if d.numberOfTaskConstraints ≤ i ∧ i < d.numberOfConstraints then
      tanh (d.kb * (d.jointPosition (i - d.numberOfTaskConstraints)
                     - d.minJointsPosition (i - d.numberOfTaskConstraints)))
        * (-d.maxJointsVelocity (i - d.numberOfTaskConstraints))
    else taskBlock i,
   fun i =>
    if d.numberOfTaskConstraints ≤ i ∧ i < d.numberOfConstraints then
      tanh (d.ku * (d.maxJointsPosition (i - d.numberOfTaskConstraints)
                     - d.jointPosition (i - d.numberOfTaskConstraints)))
        * d.maxJointsVelocity (i - d.numberOfTaskConstraints)
    else taskBlock i)

/-- Maximum coefficient of a vector (`Eigen maxCoeff`; meaningful only on a
non-empty vector, the C++ call on an empty one being undefined). -/
def maxCoeff (l : List ℚ) : ℚ :=
  match l with
  | [] => 0
  | x :: xs => xs.foldl max x

/-- Minimum coefficient of a vector (`Eigen minCoeff`). -/
def minCoeff (l : List ℚ) : ℚ :=
  match l with
  | [] => 0
  | x :: xs => xs.foldl min x

/-- Componentwise difference of two vectors. -/
def vecSub (a b : List ℚ) : List ℚ := List.zipWith (fun x y => x - y) a b

/-- Matrix–vector product for a dense matrix given by rows. -/
def matVec (A : List (List ℚ)) (x : List ℚ) : List ℚ :=
  A.map (fun row => (List.zipWith (fun a b => a * b) row x).foldl (fun a b => a + b) 0)

namespace WalkingQPIK_osqp

/-- `WalkingQPIK_osqp::isSolutionFeasible` (tolerance 1).  The source tests
`(Ax − ub).maxCoeff() < tol  ||  (Ax − lb).maxCoeff() > −tol`. -/
def isSolutionFeasible (A : List (List ℚ)) (solution lowerBound upperBound : List ℚ) :
    Bool :=
  let tolerance : ℚ := 1
  let constrainedOutput := matVec A solution
  if maxCoeff (vecSub constrainedOutput upperBound) < tolerance
     ∨ maxCoeff (vecSub constrainedOutput lowerBound) > -tolerance then
    true
  else
    false

/-- The tail of `WalkingQPIK_osqp::solve` after the OSQP call: the solver's
solution (`none` when OSQP itself failed) is passed through
`isSolutionFeasible`; on failure `solve` returns `false`. -/
def solve (A : List (List ℚ)) (lowerBound upperBound : List ℚ)
    (optimizerSolution : Option (List ℚ)) :
    Option (List ℚ) :=
  match optimizerSolution with
  | none => none
  | some sol =>
    if isSolutionFeasible A sol lowerBound upperBound then some sol else none

end WalkingQPIK_osqp

namespace TaskBasedTorqueSolver

/-- `TaskBasedTorqueSolver::isSolutionFeasible` (tolerance 0.5):
`(Ax − ub).maxCoeff() < tol  &&  (Ax − lb).minCoeff() > −tol`. -/
def isSolutionFeasible (A : List (List ℚ)) (solution lowerBound upperBound : List ℚ) :
    Bool :=
  let tolerance : ℚ := 1 / 2
  let constrainedOutput := matVec A solution
  if maxCoeff (vecSub constrainedOutput upperBound) < tolerance
     ∧ minCoeff (vecSub constrainedOutput lowerBound) > -tolerance then
    true
  else
    false

/-- The tail of `TaskBasedTorqueSolver::solve` after the OSQP call: the call
to `isSolutionFeasible` is commented out in the source, so the joint torques
`solution[nJ+6 … 2·nJ+5]` are returned whenever the optimizer reported
success, with no feasibility check. -/
def solve (actuatedDOFs : ℕ) (optimizerSolution : Option (List ℚ)) :
    Option (List ℚ) :=
  match optimizerSolution with
  | none => none
  | some sol => some ((sol.drop (actuatedDOFs + 6)).take actuatedDOFs)

end TaskBasedTorqueSolver

/-- The effect the claim attributes to one tick on one buffer: the front
element removed, a copy of the buffer's last element appended. -/
def advancedBuffer {α : Type} (l : List α) : List α :=
  l.tail ++ l.getLast?.toList

/-- Every trajectory buffer holds at least `k` samples. -/
def buffersAtLeast (s : WalkingBuffers) (k : ℕ) : Prop :=
  k ≤ s.leftTrajectory.length ∧ k ≤ s.rightTrajectory.length
  ∧ k ≤ s.leftTwistTrajectory.length ∧ k ≤ s.rightTwistTrajectory.length
  ∧ k ≤ s.leftAccelerationTrajectory.length
  ∧ k ≤ s.rightAccelerationTrajectory.length
  ∧ k ≤ s.leftInContact.length ∧ k ≤ s.rightInContact.length
  ∧ k ≤ s.isLeftFixedFrame.length ∧ k ≤ s.ZMPPositionDesired.length
  ∧ k ≤ s.DCMPositionDesired.length ∧ k ≤ s.DCMVelocityDesired.length
  ∧ k ≤ s.comHeightTrajectory.length ∧ k ≤ s.comHeightVelocity.length
  ∧ k ≤ s.weightInLeft.length ∧ k ≤ s.weightInRight.length

instance (s : WalkingBuffers) (k : ℕ) : Decidable (buffersAtLeast s k) := by
  unfold buffersAtLeast; infer_instance

/-- The list of the sixteen buffer lengths of a state. -/
def eachBufferLength (s : WalkingBuffers) : List ℕ :=
  [s.leftTrajectory.length, s.rightTrajectory.length,
   s.leftTwistTrajectory.length, s.rightTwistTrajectory.length,
   s.leftAccelerationTrajectory.length, s.rightAccelerationTrajectory.length,
   s.leftInContact.length, s.rightInContact.length,
   s.isLeftFixedFrame.length, s.ZMPPositionDesired.length,
   s.DCMPositionDesired.length, s.DCMVelocityDesired.length,
   s.comHeightTrajectory.length, s.comHeightVelocity.length,
   s.weightInLeft.length, s.weightInRight.length]

theorem shiftBuffer_eq_of_two_le {α : Type} (l : List α) (h : 2 ≤ l.length) :
    shiftBuffer l = advancedBuffer l := by
  match l with
  | a :: b :: t =>
    simp only [shiftBuffer, advancedBuffer, List.tail_cons,
      List.getLast?_cons_cons]

theorem shiftBuffer_length_of_two_le {α : Type} (l : List α) (h : 2 ≤ l.length) :
    (shiftBuffer l).length = l.length := by
  match l with
  | a :: b :: t =>
    simp only [shiftBuffer, List.tail_cons, List.length_append, List.length_cons]
    have : (b :: t).getLast? = some ((b :: t).getLast (by simp)) :=
      List.getLast?_eq_getLast _ _
    simp [this]

theorem shiftBuffer_length_eq {α : Type} (l : List α) (n : ℕ) (h2 : 2 ≤ n)
    (hl : l.length = n) : (shiftBuffer l).length = n := by
  subst hl
  exact shiftBuffer_length_of_two_le l h2

theorem isEmpty_eq_false_of_two_le {α : Type} (l : List α)
    (h : 2 ≤ l.length) : l.isEmpty = false := by
  cases l with
  | nil => simp at h
  | cons a t => rfl

theorem advanceReferenceSignals_eq_some (s : WalkingBuffers)
    (hlen : buffersAtLeast s 2) :
    advanceReferenceSignals s = some
      { leftTrajectory := shiftBuffer s.leftTrajectory
        rightTrajectory := shiftBuffer s.rightTrajectory
        leftTwistTrajectory := shiftBuffer s.leftTwistTrajectory
        rightTwistTrajectory := shiftBuffer s.rightTwistTrajectory
        leftAccelerationTrajectory := shiftBuffer s.leftAccelerationTrajectory
        rightAccelerationTrajectory := shiftBuffer s.rightAccelerationTrajectory
        leftInContact := shiftBuffer s.leftInContact
        rightInContact := shiftBuffer s.rightInContact
        isLeftFixedFrame := shiftBuffer s.isLeftFixedFrame
        ZMPPositionDesired := shiftBuffer s.ZMPPositionDesired
        DCMPositionDesired := shiftBuffer s.DCMPositionDesired
        DCMVelocityDesired := shiftBuffer s.DCMVelocityDesired
        comHeightTrajectory := shiftBuffer s.comHeightTrajectory
        comHeightVelocity := shiftBuffer s.comHeightVelocity
        weightInLeft := shiftBuffer s.weightInLeft
        weightInRight := shiftBuffer s.weightInRight
        mergePoints := advanceMergePoints s.mergePoints } := by
  obtain ⟨h1, h2, h3, h4, h5, h6, h7, h8, h9, h10, h11, h12, h13, h14, h15,
    h16⟩ := hlen
  rw [advanceReferenceSignals, if_neg]
  rw [isEmpty_eq_false_of_two_le _ h1, isEmpty_eq_false_of_two_le _ h2,
    isEmpty_eq_false_of_two_le _ h7, isEmpty_eq_false_of_two_le _ h8,
    isEmpty_eq_false_of_two_le _ h11, isEmpty_eq_false_of_two_le _ h12,
    isEmpty_eq_false_of_two_le _ h13]
  simp

theorem decSizeT_eq_sub_one (m : ℕ) (h0 : 0 < m) (h64 : m < 2 ^ 64) :
    decSizeT m = m - 1 := by
  unfold decSizeT
  omega

theorem advanceMergePoints_eq (mp : List ℕ)
    (hpos : ∀ m ∈ mp, 0 < m ∧ m < 2 ^ 64)
    (hsorted : mp.Pairwise (· < ·)) :
    advanceMergePoints mp
      = (mp.map fun m => m - 1).filter (fun m => decide (m ≠ 0)) := by
  have hmap : mp.map decSizeT = mp.map fun m => m - 1 :=
    List.map_congr_left fun m hm =>
      decSizeT_eq_sub_one m (hpos m hm).1 (hpos m hm).2
  have hsorted1 : (mp.map fun m => m - 1).Pairwise (· < ·) := by
    rw [List.pairwise_map]
    refine List.Pairwise.imp_of_mem ?_ hsorted
    intro a b ha hb hr
    have := (hpos a ha).1
    omega
  unfold advanceMergePoints
  rw [hmap]
  cases hcons : (mp.map fun m => m - 1) with
  | nil => simp
  | cons x xs =>
    rw [hcons] at hsorted1
    obtain ⟨hall, _⟩ := List.pairwise_cons.mp hsorted1
    show (if x = 0 then xs else x :: xs)
      = List.filter (fun m => decide (m ≠ 0)) (x :: xs)
    by_cases hx : x = 0
    · rw [if_pos hx]
      subst hx
      rw [List.filter_cons_of_neg (by simp), List.filter_eq_self.mpr]
      intro y hy
      have := hall y hy
      simp
      omega
    · rw [if_neg hx]
      rw [List.filter_cons_of_pos (by simpa using hx), List.filter_eq_self.mpr]
      intro y hy
      have hxy := hall y hy
      simp
      omega

/-- Identity transform (identity rotation, zero translation). -/
def idTransform : Transform3 := (((1, 0, 0), (0, 1, 0), (0, 0, 1)), (0, 0, 0))

/-- Zero spatial vector. -/
def zeroSpatial : Spatial := ((0, 0, 0), (0, 0, 0))

/-- A concrete buffer state with every buffer of length two and two pending
merge points. -/
def sampleBuffers : WalkingBuffers where
  leftTrajectory := [idTransform, idTransform]
  rightTrajectory := [idTransform, idTransform]
  leftTwistTrajectory := [zeroSpatial, zeroSpatial]
  rightTwistTrajectory := [zeroSpatial, zeroSpatial]
  leftAccelerationTrajectory := [zeroSpatial, zeroSpatial]
  rightAccelerationTrajectory := [zeroSpatial, zeroSpatial]
  leftInContact := [true, true]
  rightInContact := [true, true]
  isLeftFixedFrame := [true, true]
  ZMPPositionDesired := [(0, 0), (0, 0)]
  DCMPositionDesired := [(0, 0), (0, 0)]
  DCMVelocityDesired := [(0, 0), (0, 0)]
  comHeightTrajectory := [(53 : ℚ) / 100, (53 : ℚ) / 100]
  comHeightVelocity := [0, 0]
  weightInLeft := [(1 : ℚ) / 2, (1 : ℚ) / 2]
  weightInRight := [(1 : ℚ) / 2, (1 : ℚ) / 2]
  mergePoints := [3, 17]

/-- A buffer state whose seven guard-checked buffers are non-empty while all
nine remaining buffers are empty. -/
def guardOnlyBuffers : WalkingBuffers where
  leftTrajectory := [idTransform]
  rightTrajectory := [idTransform]
  leftTwistTrajectory := []
  rightTwistTrajectory := []
  leftAccelerationTrajectory := []
  rightAccelerationTrajectory := []
  leftInContact := [true]
  rightInContact := [true]
  isLeftFixedFrame := []
  ZMPPositionDesired := []
  DCMPositionDesired := [(0, 0)]
  DCMVelocityDesired := [(0, 0)]
  comHeightTrajectory := [(53 : ℚ) / 100]
  comHeightVelocity := []
  weightInLeft := []
  weightInRight := []
  mergePoints := []

/-- The all-empty buffer state. -/
def emptyBuffers : WalkingBuffers where
  leftTrajectory := []
  rightTrajectory := []
  leftTwistTrajectory := []
  rightTwistTrajectory := []
  leftAccelerationTrajectory := []
  rightAccelerationTrajectory := []
  leftInContact := []
  rightInContact := []
  isLeftFixedFrame := []
  ZMPPositionDesired := []
  DCMPositionDesired := []
  DCMVelocityDesired := []
  comHeightTrajectory := []
  comHeightVelocity := []
  weightInLeft := []
  weightInRight := []
  mergePoints := []

/-- A scheduler state in Walking with no merge points, both feet in contact
and no pending re-plan request. -/
def idleScheduler : SchedulerState where
  mergePoints := []
  leftInContact := [true]
  rightInContact := [true]
  desiredPosition := (0, 0)
  newTrajectoryMergeCounter := -1
  newTrajectoryRequired := false

/-- C1: the claim says that after every successful QP solve the solution is
checked against the bounds with tolerance 0.5 (torque) / 1.0 (IK) and that a
violation beyond the tolerance makes the solve fail.  The code does not do
this: at constraint matrix `[[1]]`, solution `[10]`, lower = upper = `[0]`,
the product exceeds the upper bound by `10 > 1`, yet the IK solve succeeds —
`WalkingQPIK_osqp::isSolutionFeasible` tests a disjunction
`(Ax−ub).maxCoeff < tol  ||  (Ax−lb).maxCoeff > −tol`, whose second disjunct
is satisfied by the very violation.  In torque mode the check is commented
out of `solve`: at an 8-dimensional decision vector whose constraint row
exceeds the bound by 10, `solve` still returns the torque slice, while
`TaskBasedTorqueSolver::isSolutionFeasible` itself (the intended conjunctive
check) evaluates to `false` on the same data. -/
theorem C1_infeasibility_check_not_enforced :
    WalkingQPIK_osqp.solve [[1]] [0] [0] (some [10]) = some [10]
    ∧ maxCoeff (vecSub (matVec [[1]] [10]) [0]) = 10
    ∧ TaskBasedTorqueSolver.solve 1 (some [10, 0, 0, 0, 0, 0, 0, 3]) = some [3]
    ∧ TaskBasedTorqueSolver.isSolutionFeasible [[1, 0, 0, 0, 0, 0, 0, 0]]
        [10, 0, 0, 0, 0, 0, 0, 3] [0] [0] = false := by
  refine ⟨?_, ?_, rfl, ?_⟩ <;>
    simp [WalkingQPIK_osqp.solve, WalkingQPIK_osqp.isSolutionFeasible,
      TaskBasedTorqueSolver.isSolutionFeasible, matVec, vecSub, maxCoeff,
      minCoeff] <;>
    norm_num

/-- C2 (counterexample): the claim says a planner miss at countdown 2 is
non-fatal (the tick completes, buffers are retained, re-planning is
re-requested).  At a concrete Walking state with a pending request, countdown
2 and no computed trajectory, the countdown slice of `updateModule` instead
returns `none`, i.e. `updateModule` returns `false`, which stops the module:
the tick does not complete. -/
theorem C2_planner_miss_counterexample :
    mergeCountdownStep sampleBuffers true 2 true none = none := rfl

/-- C2 (amended): for every Walking tick at which a re-plan was requested and
the merge countdown reaches 2 but the planner has not yet produced the new
trajectory, `updateTrajectories` fails and `updateModule` returns `false` —
the failure is fatal: the module stops, nothing is spliced and re-planning is
not re-requested. -/
theorem C2_planner_miss_fatal (s : WalkingBuffers) (askOk : Bool) :
    mergeCountdownStep s true 2 askOk none = none := by
  unfold mergeCountdownStep updateTrajectories
  norm_num

/-- C2 witness: the amended theorem applied at a concrete state. -/
theorem C2_planner_miss_fatal_witness :
    mergeCountdownStep emptyBuffers true 2 false none = none :=
  C2_planner_miss_fatal emptyBuffers false

theorem setPlannerInput_fields (s s1 : SchedulerState) (x y : ℚ)
    (h : setPlannerInput s x y = some s1) :
    s1.mergePoints = s.mergePoints ∧ s1.leftInContact = s.leftInContact
    ∧ s1.rightInContact = s.rightInContact
    ∧ s1.newTrajectoryRequired = true
    ∧ (s.mergePoints = [] →
        (s.leftInContact.headD false && s.rightInContact.headD false) = true) := by
  unfold setPlannerInput at h
  by_cases hm : s.mergePoints = []
  · rw [if_pos hm] at h
    cases hb : (s.leftInContact.headD false && s.rightInContact.headD false) with
    | false =>
      rw [hb] at h
      simp at h
    | true =>
      rw [hb] at h
      simp only [Bool.not_true, Bool.false_eq_true, if_false] at h
      by_cases hr : s.newTrajectoryRequired = true
      · rw [if_pos hr] at h
        obtain rfl := Option.some.inj h
        exact ⟨rfl, rfl, rfl, hr, fun _ => rfl⟩
      · rw [if_neg hr] at h
        obtain rfl := Option.some.inj h
        exact ⟨rfl, rfl, rfl, rfl, fun _ => rfl⟩
  · rw [if_neg hm] at h
    by_cases h10 : 10 < s.mergePoints.headD 0
    · rw [if_pos h10] at h
      obtain rfl := Option.some.inj h
      exact ⟨rfl, rfl, rfl, rfl, fun h0 => absurd h0 hm⟩
    · rw [if_neg h10] at h
      by_cases hlen : 1 < s.mergePoints.length
      · rw [if_pos hlen] at h
        by_cases hr : s.newTrajectoryRequired = true
        · rw [if_pos hr] at h
          obtain rfl := Option.some.inj h
          exact ⟨rfl, rfl, rfl, hr, fun h0 => absurd h0 hm⟩
        · rw [if_neg hr] at h
          obtain rfl := Option.some.inj h
          exact ⟨rfl, rfl, rfl, rfl, fun h0 => absurd h0 hm⟩
      · rw [if_neg hlen] at h
        by_cases hr : s.newTrajectoryRequired = true
        · rw [if_pos hr] at h
          obtain rfl := Option.some.inj h
          exact ⟨rfl, rfl, rfl, hr, fun h0 => absurd h0 hm⟩
        · rw [if_neg hr] at h
          obtain rfl := Option.some.inj h
          exact ⟨rfl, rfl, rfl, rfl, fun h0 => absurd h0 hm⟩

theorem setPlannerInput_noop (s : SchedulerState) (x y : ℚ)
    (hreq : s.newTrajectoryRequired = true)
    (hcontacts : s.mergePoints = [] →
      (s.leftInContact.headD false && s.rightInContact.headD false) = true)
    (hmp : s.mergePoints ≠ [] → ¬ 10 < s.mergePoints.headD 0) :
    setPlannerInput s x y = some s := by
  unfold setPlannerInput
  by_cases hm : s.mergePoints = []
  · rw [if_pos hm, hcontacts hm]
    simp only [Bool.not_true, Bool.false_eq_true, if_false]
    rw [if_pos hreq]
  · rw [if_neg hm, if_neg (hmp hm)]
    by_cases hlen : 1 < s.mergePoints.length
    · rw [if_pos hlen, if_pos hreq]
    · rw [if_neg hlen, if_pos hreq]

/-- C3 (counterexample): the claim says two `setGoal` calls in the same tick
are equivalent to a single call with the last value.  From the Walking state
with no merge points, both feet in contact and no pending request,
`setGoal (0,0)` followed by `setGoal (1,1)` leaves the stored desired
position at `(0,0)`: the second call hits the early
`if(m_newTrajectoryRequired) return true;` and changes nothing, while a
single `setGoal (1,1)` stores `(1,1)`. -/
theorem C3_double_setGoal_counterexample :
    ((setGoal WalkingFSM.Walking idleScheduler 0 0).bind
        (fun s1 => setGoal WalkingFSM.Walking s1 1 1))
      ≠ setGoal WalkingFSM.Walking idleScheduler 1 1
    ∧ Option.map SchedulerState.desiredPosition
        ((setGoal WalkingFSM.Walking idleScheduler 0 0).bind
          (fun s1 => setGoal WalkingFSM.Walking s1 1 1)) = some (0, 0)
    ∧ Option.map SchedulerState.desiredPosition
        (setGoal WalkingFSM.Walking idleScheduler 1 1) = some (1, 1) := by
  refine ⟨fun h => ?_, rfl, rfl⟩
  have h1 : (some ((0 : ℚ), (0 : ℚ)) : Option Vec2) = some (1, 1) :=
    congrArg (Option.map SchedulerState.desiredPosition) h
  simp only [Option.some.injEq, Prod.mk.injEq] at h1
  exact absurd h1.1 (by norm_num)

/-- C3 (amended): two `setGoal` calls in the same Walking tick are equivalent
to a single call with the last value only when the next merge point is more
than 10 samples away; in every other situation in which the first call
succeeds, the second call returns success without modifying the scheduler
state (the stored position and counter remain those of the first call). -/
theorem C3_double_setGoal_amended :
    (∀ (s : SchedulerState) (x1 y1 x2 y2 : ℚ) (m : ℕ) (rest : List ℕ),
      s.mergePoints = m :: rest → 10 < m →
      (setGoal WalkingFSM.Walking s x1 y1).bind
          (fun s1 => setGoal WalkingFSM.Walking s1 x2 y2)
        = setGoal WalkingFSM.Walking s x2 y2)
    ∧ (∀ (s s1 : SchedulerState) (x1 y1 x2 y2 : ℚ),
      setGoal WalkingFSM.Walking s x1 y1 = some s1 →
      (s.mergePoints = [] ∨ ∃ m rest, s.mergePoints = m :: rest ∧ m ≤ 10) →
      setGoal WalkingFSM.Walking s1 x2 y2 = some s1) := by
  constructor
  · intro s x1 y1 x2 y2 m rest hmp hm
    simp [setGoal, setPlannerInput, hmp, hm, List.headD_cons]
  · intro s s1 x1 y1 x2 y2 h hcase
    rw [setGoal, if_neg (by simp)] at h ⊢
    obtain ⟨hmp, hlc, hrc, hreq, hguard⟩ := setPlannerInput_fields s s1 x1 y1 h
    apply setPlannerInput_noop
    · exact hreq
    · intro h0
      rw [hlc, hrc]
      exact hguard (hmp ▸ h0)
    · intro hne
      rcases hcase with hc | ⟨m', rest', hc, hm'⟩
      · exact absurd (hmp.trans hc) hne
      · rw [hmp, hc]
        simp only [List.headD_cons]
        omega

/-- C3 witness: both parts of the amended theorem at concrete states. -/
theorem C3_double_setGoal_amended_witness :
    (setGoal WalkingFSM.Walking
        { idleScheduler with mergePoints := [17] } 0 0).bind
        (fun s1 => setGoal WalkingFSM.Walking s1 1 1)
      = setGoal WalkingFSM.Walking { idleScheduler with mergePoints := [17] } 1 1
    ∧ setGoal WalkingFSM.Walking
        { idleScheduler with desiredPosition := (5, 5),
                             newTrajectoryMergeCounter := 10,
                             newTrajectoryRequired := true } 1 1
      = some { idleScheduler with desiredPosition := (5, 5),
                                  newTrajectoryMergeCounter := 10,
                                  newTrajectoryRequired := true } :=
  ⟨C3_double_setGoal_amended.1 _ 0 0 1 1 17 [] rfl (by norm_num),
   C3_double_setGoal_amended.2 idleScheduler _ 5 5 1 1 rfl (Or.inl rfl)⟩

/-- C4: `startWalking` from a state other than Prepared or Paused is rejected
(returns `false`, state unchanged); from Prepared or Paused it returns `true`
and moves the FSM to Walking.  `setGoal` while not Walking is rejected
(returns `false`); the source of `setGoal` never writes `m_robotState`, so
the FSM state is unchanged on that path. -/
theorem C4_fsm_guards (st : WalkingFSM) :
    (st ≠ WalkingFSM.Prepared ∧ st ≠ WalkingFSM.Paused →
      startWalking st = (false, st))
    ∧ (st = WalkingFSM.Prepared ∨ st = WalkingFSM.Paused →
      startWalking st = (true, WalkingFSM.Walking))
    ∧ (∀ (s : SchedulerState) (x y : ℚ), st ≠ WalkingFSM.Walking →
      setGoal st s x y = none) := by
  refine ⟨fun h => ?_, fun h => ?_, fun s x y h => ?_⟩
  · rw [startWalking, if_pos h]
  · rw [startWalking, if_neg]
    rcases h with h | h <;> simp [h]
  · rw [setGoal, if_pos h]

/-- C4 witness: the guards at concrete states. -/
theorem C4_fsm_guards_witness :
    startWalking WalkingFSM.Stopped = (false, WalkingFSM.Stopped)
    ∧ startWalking WalkingFSM.Prepared = (true, WalkingFSM.Walking)
    ∧ setGoal WalkingFSM.Paused idleScheduler 1 2 = none :=
  ⟨(C4_fsm_guards WalkingFSM.Stopped).1 (by decide),
   (C4_fsm_guards WalkingFSM.Prepared).2.1 (Or.inl rfl),
   (C4_fsm_guards WalkingFSM.Paused).2.2 idleScheduler 1 2 (by decide)⟩

/-- C5: for every state whose buffers all hold at least two samples (with a
single sample the C++ `back()` after `pop_front()` is undefined) and whose
merge points are positive `size_t` values in strictly increasing order (the
maintained invariant), `advanceReferenceSignals` succeeds, removes the front
element of every buffer and appends a copy of that buffer's last element,
leaves every buffer length unchanged, decrements every merge point by one and
drops exactly the merge points that reach zero. -/
theorem C5_advance_per_tick (s : WalkingBuffers)
    (hlen : buffersAtLeast s 2)
    (hpos : ∀ m ∈ s.mergePoints, 0 < m ∧ m < 2 ^ 64)
    (hsorted : s.mergePoints.Pairwise (· < ·)) :
    ∃ s1, advanceReferenceSignals s = some s1
      ∧ s1.mergePoints
          = (s.mergePoints.map fun m => m - 1).filter (fun m => decide (m ≠ 0))
      ∧ eachBufferLength s1 = eachBufferLength s
      ∧ s1.leftTrajectory = advancedBuffer s.leftTrajectory
      ∧ s1.rightTrajectory = advancedBuffer s.rightTrajectory
      ∧ s1.leftTwistTrajectory = advancedBuffer s.leftTwistTrajectory
      ∧ s1.rightTwistTrajectory = advancedBuffer s.rightTwistTrajectory
      ∧ s1.leftAccelerationTrajectory = advancedBuffer s.leftAccelerationTrajectory
      ∧ s1.rightAccelerationTrajectory = advancedBuffer s.rightAccelerationTrajectory
      ∧ s1.leftInContact = advancedBuffer s.leftInContact
      ∧ s1.rightInContact = advancedBuffer s.rightInContact
      ∧ s1.isLeftFixedFrame = advancedBuffer s.isLeftFixedFrame
      ∧ s1.ZMPPositionDesired = advancedBuffer s.ZMPPositionDesired
      ∧ s1.DCMPositionDesired = advancedBuffer s.DCMPositionDesired
      ∧ s1.DCMVelocityDesired = advancedBuffer s.DCMVelocityDesired
      ∧ s1.comHeightTrajectory = advancedBuffer s.comHeightTrajectory
      ∧ s1.comHeightVelocity = advancedBuffer s.comHeightVelocity
      ∧ s1.weightInLeft = advancedBuffer s.weightInLeft
      ∧ s1.weightInRight = advancedBuffer s.weightInRight := by
  obtain ⟨h1, h2, h3, h4, h5, h6, h7, h8, h9, h10, h11, h12, h13, h14, h15, h16⟩
    := id hlen
  refine ⟨_, advanceReferenceSignals_eq_some s hlen, ?_, ?_,
    shiftBuffer_eq_of_two_le _ h1, shiftBuffer_eq_of_two_le _ h2,
    shiftBuffer_eq_of_two_le _ h3, shiftBuffer_eq_of_two_le _ h4,
    shiftBuffer_eq_of_two_le _ h5, shiftBuffer_eq_of_two_le _ h6,
    shiftBuffer_eq_of_two_le _ h7, shiftBuffer_eq_of_two_le _ h8,
    shiftBuffer_eq_of_two_le _ h9, shiftBuffer_eq_of_two_le _ h10,
    shiftBuffer_eq_of_two_le _ h11, shiftBuffer_eq_of_two_le _ h12,
    shiftBuffer_eq_of_two_le _ h13, shiftBuffer_eq_of_two_le _ h14,
    shiftBuffer_eq_of_two_le _ h15, shiftBuffer_eq_of_two_le _ h16⟩
  · exact advanceMergePoints_eq s.mergePoints hpos hsorted
  · simp only [eachBufferLength,
      shiftBuffer_length_of_two_le _ h1, shiftBuffer_length_of_two_le _ h2,
      shiftBuffer_length_of_two_le _ h3, shiftBuffer_length_of_two_le _ h4,
      shiftBuffer_length_of_two_le _ h5, shiftBuffer_length_of_two_le _ h6,
      shiftBuffer_length_of_two_le _ h7, shiftBuffer_length_of_two_le _ h8,
      shiftBuffer_length_of_two_le _ h9, shiftBuffer_length_of_two_le _ h10,
      shiftBuffer_length_of_two_le _ h11, shiftBuffer_length_of_two_le _ h12,
      shiftBuffer_length_of_two_le _ h13, shiftBuffer_length_of_two_le _ h14,
      shiftBuffer_length_of_two_le _ h15, shiftBuffer_length_of_two_le _ h16]

/-- C5 witness: the advance theorem at a concrete state; the merge points
`[3, 17]` become `[2, 16]`. -/
theorem C5_advance_per_tick_witness :
    ∃ s1, advanceReferenceSignals sampleBuffers = some s1
      ∧ s1.mergePoints = [2, 16] := by
  obtain ⟨s1, hs1, hmp, _⟩ :=
    C5_advance_per_tick sampleBuffers (by decide) (by decide) (by decide)
  refine ⟨s1, hs1, ?_⟩
  rw [hmp]
  decide

/-- C6: both buffer-mutating operations preserve equality of the lengths of
all sixteen trajectory buffers.  The per-tick advance keeps the common
length `n`; the splice of a bundle whose vectors share length `m` at a merge
point `mp ≤ n` leaves all buffers with common length `mp + m`. -/
theorem C6_buffer_length_invariant (s : WalkingBuffers) (n : ℕ)
    (hall : allBuffersLength s n) (h2 : 2 ≤ n) :
    (∃ s1, advanceReferenceSignals s = some s1 ∧ allBuffersLength s1 n)
    ∧ ∀ (b : TrajectoryBundle) (m mp : ℕ), bundleLength b m → mp ≤ n →
        ∃ s1, updateTrajectories (some b) s mp = some s1
          ∧ allBuffersLength s1 (mp + m) := by
  obtain ⟨h1, h2', h3, h4, h5, h6, h7, h8, h9, h10, h11, h12, h13, h14, h15,
    h16⟩ := hall
  constructor
  · have hb2 : buffersAtLeast s 2 :=
      ⟨le_of_le_of_eq h2 h1.symm, le_of_le_of_eq h2 h2'.symm,
       le_of_le_of_eq h2 h3.symm, le_of_le_of_eq h2 h4.symm,
       le_of_le_of_eq h2 h5.symm, le_of_le_of_eq h2 h6.symm,
       le_of_le_of_eq h2 h7.symm, le_of_le_of_eq h2 h8.symm,
       le_of_le_of_eq h2 h9.symm, le_of_le_of_eq h2 h10.symm,
       le_of_le_of_eq h2 h11.symm, le_of_le_of_eq h2 h12.symm,
       le_of_le_of_eq h2 h13.symm, le_of_le_of_eq h2 h14.symm,
       le_of_le_of_eq h2 h15.symm, le_of_le_of_eq h2 h16.symm⟩
    refine ⟨_, advanceReferenceSignals_eq_some s hb2,
      shiftBuffer_length_eq _ n h2 h1, shiftBuffer_length_eq _ n h2 h2',
      shiftBuffer_length_eq _ n h2 h3, shiftBuffer_length_eq _ n h2 h4,
      shiftBuffer_length_eq _ n h2 h5, shiftBuffer_length_eq _ n h2 h6,
      shiftBuffer_length_eq _ n h2 h7, shiftBuffer_length_eq _ n h2 h8,
      shiftBuffer_length_eq _ n h2 h9, shiftBuffer_length_eq _ n h2 h10,
      shiftBuffer_length_eq _ n h2 h11, shiftBuffer_length_eq _ n h2 h12,
      shiftBuffer_length_eq _ n h2 h13, shiftBuffer_length_eq _ n h2 h14,
      shiftBuffer_length_eq _ n h2 h15, shiftBuffer_length_eq _ n h2 h16⟩
  · intro b m mp hb hmp
    obtain ⟨g1, g2, g3, g4, g5, g6, g7, g8, g9, g10, g11, g12, g13, g14, g15,
      g16⟩ := hb
    have ht : ∀ {α : Type} (inp out : List α), out.length = n →
        inp.length = m → (appendVectorToDeque inp out mp).length = mp + m := by
      intro α inp out ho hi
      rw [appendVectorToDeque, List.length_append, List.length_take, ho, hi,
        Nat.min_eq_left hmp]
    refine ⟨_, rfl,
      ht _ _ h1 g1, ht _ _ h2' g2, ht _ _ h3 g3, ht _ _ h4 g4, ht _ _ h5 g5,
      ht _ _ h6 g6, ht _ _ h7 g7, ht _ _ h8 g8, ht _ _ h9 g9, ht _ _ h10 g10,
      ht _ _ h11 g11, ht _ _ h12 g12, ht _ _ h13 g13, ht _ _ h14 g14,
      ht _ _ h15 g15, ht _ _ h16 g16⟩

/-- A concrete one-sample trajectory bundle. -/
def sampleBundle : TrajectoryBundle where
  leftTrajectory := [idTransform]
  rightTrajectory := [idTransform]
  leftTwistTrajectory := [zeroSpatial]
  rightTwistTrajectory := [zeroSpatial]
  leftAccelerationTrajectory := [zeroSpatial]
  rightAccelerationTrajectory := [zeroSpatial]
  leftInContact := [true]
  rightInContact := [true]
  isLeftFixedFrame := [true]
  ZMPPositionDesired := [(0, 0)]
  DCMPositionDesired := [(0, 0)]
  DCMVelocityDesired := [(0, 0)]
  comHeightTrajectory := [(53 : ℚ) / 100]
  comHeightVelocity := [0]
  weightInLeft := [(1 : ℚ) / 2]
  weightInRight := [(1 : ℚ) / 2]
  mergePoints := [0, 20]

/-- C6 witness: both parts of the invariant theorem at a concrete state of
common length 2 and a one-sample bundle spliced at merge point 1. -/
theorem C6_buffer_length_invariant_witness :
    (∃ s1, advanceReferenceSignals sampleBuffers = some s1
      ∧ allBuffersLength s1 2)
    ∧ ∃ s1, updateTrajectories (some sampleBundle) sampleBuffers 1 = some s1
        ∧ allBuffersLength s1 2 :=
  ⟨(C6_buffer_length_invariant sampleBuffers 2 (by decide) (by decide)).1,
   (C6_buffer_length_invariant sampleBuffers 2 (by decide) (by decide)).2
     sampleBundle 1 1 (by decide) (by decide)⟩

/-- C7: branch analysis of `setPlannerInput` for a fresh re-plan request (no
request already pending).  With no merge point and both feet in contact the
splice is scheduled 10 samples ahead; with no merge point and a foot out of
contact the request fails; with the next merge point more than 10 samples
away the splice is scheduled there; otherwise at the second merge point when
one exists, and 10 samples ahead when not. -/
theorem C7_replan_scheduling (s : SchedulerState) (x y : ℚ)
    (hreq : s.newTrajectoryRequired = false) :
    (s.mergePoints = [] →
      (s.leftInContact.headD false && s.rightInContact.headD false) = true →
      setPlannerInput s x y
        = some { s with newTrajectoryMergeCounter := 10,
                        desiredPosition := (x, y),
                        newTrajectoryRequired := true })
    ∧ (s.mergePoints = [] →
      (s.leftInContact.headD false && s.rightInContact.headD false) = false →
      setPlannerInput s x y = none)
    ∧ (∀ m rest, s.mergePoints = m :: rest → 10 < m →
      setPlannerInput s x y
        = some { s with newTrajectoryMergeCounter := (m : ℤ),
                        desiredPosition := (x, y),
                        newTrajectoryRequired := true })
    ∧ (∀ m m2 rest, s.mergePoints = m :: m2 :: rest → m ≤ 10 →
      setPlannerInput s x y
        = some { s with newTrajectoryMergeCounter := (m2 : ℤ),
                        desiredPosition := (x, y),
                        newTrajectoryRequired := true })
    ∧ (∀ m, s.mergePoints = [m] → m ≤ 10 →
      setPlannerInput s x y
        = some { s with newTrajectoryMergeCounter := 10,
                        desiredPosition := (x, y),
                        newTrajectoryRequired := true }) := by
  refine ⟨fun hm hc => ?_, fun hm hc => ?_, fun m rest hm h10 => ?_,
    fun m m2 rest hm h10 => ?_, fun m hm h10 => ?_⟩
  · rw [setPlannerInput, if_pos hm, hc]
    simp only [Bool.not_true, Bool.false_eq_true, if_false]
    rw [if_neg (by simp [hreq])]
  · rw [setPlannerInput, if_pos hm, hc]
    simp only [Bool.not_false, if_true]
  · rw [setPlannerInput, if_neg (by simp [hm]), if_pos (by simp [hm, h10])]
    rw [hm]
    simp only [List.headD_cons]
  · rw [setPlannerInput, if_neg (by simp [hm]),
      if_neg (by simp [hm, Nat.not_lt.mpr h10]),
      if_pos (by simp [hm]), if_neg (by simp [hreq])]
    rw [hm]
    simp only [List.getD_cons_succ, List.getD_cons_zero]
  · rw [setPlannerInput, if_neg (by simp [hm]),
      if_neg (by simp [hm, Nat.not_lt.mpr h10]),
      if_neg (by simp [hm]), if_neg (by simp [hreq])]

/-- C7 witness: the first and third branches at concrete states. -/
theorem C7_replan_scheduling_witness :
    setPlannerInput idleScheduler 3 4
      = some { idleScheduler with newTrajectoryMergeCounter := 10,
                                  desiredPosition := (3, 4),
                                  newTrajectoryRequired := true }
    ∧ setPlannerInput { idleScheduler with mergePoints := [25, 40] } 3 4
      = some { idleScheduler with mergePoints := [25, 40],
                                  newTrajectoryMergeCounter := 25,
                                  desiredPosition := (3, 4),
                                  newTrajectoryRequired := true } :=
  ⟨(C7_replan_scheduling idleScheduler 3 4 rfl).1 rfl rfl,
   (C7_replan_scheduling { idleScheduler with mergePoints := [25, 40] } 3 4
      rfl).2.2.1 25 [40] rfl (by norm_num)⟩

/-- C8: given the FK solver is initialized, `evaluateZMP` fails exactly when
the sum of the measured vertical contact forces is below 0.1 N; otherwise it
returns the vertical-force-weighted average of the two per-foot ZMPs in
world frame, a foot with vertical force below 0.001 N contributing a zero
term. -/
theorem C8_evaluateZMP_spec (leftWrench rightWrench : Spatial)
    (worldLeft worldRight : Transform3) :
    (evaluateZMP true leftWrench rightWrench worldLeft worldRight = none
      ↔ rightWrench.1.2.2 + leftWrench.1.2.2 < 1 / 10)
    ∧ (¬ rightWrench.1.2.2 + leftWrench.1.2.2 < 1 / 10 →
      evaluateZMP true leftWrench rightWrench worldLeft worldRight
        = some (add2
            (zmpWeightedTerm leftWrench worldLeft
              (rightWrench.1.2.2 + leftWrench.1.2.2))
            (zmpWeightedTerm rightWrench worldRight
              (rightWrench.1.2.2 + leftWrench.1.2.2)))) := by
  by_cases hr : rightWrench.1.2.2 < 1 / 1000 <;>
    by_cases hl : leftWrench.1.2.2 < 1 / 1000 <;>
    by_cases ht : rightWrench.1.2.2 + leftWrench.1.2.2 < 1 / 10 <;>
    refine ⟨?_, fun hts => ?_⟩ <;>
    simp only [evaluateZMP, zmpWeightedTerm, add2, Bool.not_true,
      Bool.false_eq_true, if_false, hr, hl, ht, if_true, reduceCtorEq,
      not_false_eq_true, not_true_eq_false, iff_true, iff_false,
      Option.some.injEq] <;>
    first
    | exact ht
    | exact absurd ht hts
    | (rw [Prod.mk.injEq]; constructor <;> ring)

/-- C8 witness: concrete wrenches of 50 N on each foot with identity
foot-to-world transforms. -/
theorem C8_evaluateZMP_spec_witness :
    evaluateZMP true ((0, 0, 50), (1, 2, 0)) ((0, 0, 50), (3, 4, 0))
        idTransform idTransform
      = some (add2
          (zmpWeightedTerm ((0, 0, 50), (1, 2, 0)) idTransform 100)
          (zmpWeightedTerm ((0, 0, 50), (3, 4, 0)) idTransform 100)) := by
  have h := (C8_evaluateZMP_spec ((0, 0, 50), (1, 2, 0)) ((0, 0, 50), (3, 4, 0))
      idTransform idTransform).2 (by norm_num)
  rw [h]
  norm_num

/-- C9: in every constraint row following the task constraints, the bounds
written by `setBounds` are exactly the `tanh`-shaped joint-velocity limits:
upper `tanh(k_u·(q_max − q))·v_max` and lower `−tanh(k_b·(q − q_min))·v_max`
for the joint indexed by the row offset. -/
theorem C9_joint_velocity_bounds (tanh : ℚ → ℚ) (skewSym : Mat3 → Mat3)
    (d : QPIKData) (i : ℕ) (h1 : d.numberOfTaskConstraints ≤ i)
    (h2 : i < d.numberOfConstraints) :
    (setBounds tanh skewSym d).2 i
      = tanh (d.ku * (d.maxJointsPosition (i - d.numberOfTaskConstraints)
                       - d.jointPosition (i - d.numberOfTaskConstraints)))
          * d.maxJointsVelocity (i - d.numberOfTaskConstraints)
    ∧ (setBounds tanh skewSym d).1 i
      = -(tanh (d.kb * (d.jointPosition (i - d.numberOfTaskConstraints)
                         - d.minJointsPosition (i - d.numberOfTaskConstraints)))
            * d.maxJointsVelocity (i - d.numberOfTaskConstraints)) := by
  unfold setBounds
  refine ⟨?_, ?_⟩ <;> (simp only [if_pos (And.intro h1 h2)]; try ring)

/-- A concrete instance of the data read by `setBounds`: one joint at
position 2 inside limits `[−3, 7]`, velocity limit 5, gains `k_u = k_b = 1`,
twelve task rows. -/
def sampleQPIKData : QPIKData where
  kPosFoot := 1
  kAttFoot := 1
  kCom := 1
  ku := 1
  kb := 1
  leftFootToWorldTransform := idTransform
  desiredLeftFootToWorldTransform := idTransform
  rightFootToWorldTransform := idTransform
  desiredRightFootToWorldTransform := idTransform
  leftFootTwist := zeroSpatial
  rightFootTwist := zeroSpatial
  useCoMAsConstraint := false
  comVelocity := (0, 0, 0)
  comPosition := (0, 0, 0)
  desiredComPosition := (0, 0, 0)
  numberOfTaskConstraints := 12
  numberOfConstraints := 13
  jointPosition := fun _ => 2
  minJointsPosition := fun _ => -3
  maxJointsPosition := fun _ => 7
  maxJointsVelocity := fun _ => 5

/-- C9 witness: the bound formulas at row 12 of the concrete data, with the
identity in place of `tanh`. -/
theorem C9_joint_velocity_bounds_witness :
    (setBounds (fun q => q) (fun M => M) sampleQPIKData).2 12
      = (fun q => q) (sampleQPIKData.ku
          * (sampleQPIKData.maxJointsPosition (12 - 12)
              - sampleQPIKData.jointPosition (12 - 12)))
        * sampleQPIKData.maxJointsVelocity (12 - 12)
    ∧ (setBounds (fun q => q) (fun M => M) sampleQPIKData).1 12
      = -((fun q => q) (sampleQPIKData.kb
            * (sampleQPIKData.jointPosition (12 - 12)
                - sampleQPIKData.minJointsPosition (12 - 12)))
          * sampleQPIKData.maxJointsVelocity (12 - 12)) :=
  C9_joint_velocity_bounds (fun q => q) (fun M => M) sampleQPIKData 12
    (by decide) (by decide)

/-- C10: if any of the seven buffers checked at the entry of
`advanceReferenceSignals` is empty, the function returns `false` (`none`)
straight from the entry guard, before any buffer or merge point is touched;
and the emptiness of the nine remaining buffers is not part of the guard: a
state in which all nine are empty while the seven checked ones are non-empty
still advances successfully. -/
theorem C10_advance_entry_guard :
    (∀ s : WalkingBuffers,
      s.leftTrajectory = [] ∨ s.rightTrajectory = [] ∨ s.leftInContact = []
        ∨ s.rightInContact = [] ∨ s.DCMPositionDesired = []
        ∨ s.DCMVelocityDesired = [] ∨ s.comHeightTrajectory = [] →
      advanceReferenceSignals s = none)
    ∧ guardOnlyBuffers.leftTwistTrajectory = []
    ∧ guardOnlyBuffers.rightTwistTrajectory = []
    ∧ guardOnlyBuffers.leftAccelerationTrajectory = []
    ∧ guardOnlyBuffers.rightAccelerationTrajectory = []
    ∧ guardOnlyBuffers.isLeftFixedFrame = []
    ∧ guardOnlyBuffers.ZMPPositionDesired = []
    ∧ guardOnlyBuffers.comHeightVelocity = []
    ∧ guardOnlyBuffers.weightInLeft = []
    ∧ guardOnlyBuffers.weightInRight = []
    ∧ (advanceReferenceSignals guardOnlyBuffers).isSome = true := by
  refine ⟨fun s h => ?_, rfl, rfl, rfl, rfl, rfl, rfl, rfl, rfl, rfl, by decide⟩
  rw [advanceReferenceSignals, if_pos]
  simp only [List.isEmpty_iff, Bool.or_eq_true]
  tauto

/-- C10 witness: the guard theorem applied to the all-empty state. -/
theorem C10_advance_entry_guard_witness :
    advanceReferenceSignals emptyBuffers = none :=
  C10_advance_entry_guard.1 emptyBuffers (Or.inl rfl)

end WalkingControllers
